import Mathlib

/-!
# Verification of the WinMerge version reader and POCO environment facade

Shallow embedding of `Src/Common/version.cpp` (class `CVersionInfo` and the
helper `MakeVersionString`) and of `Externals/poco/Foundation/src/Environment.cpp`
(class `Poco::Environment`), together with theorems settling the specification
claims about them.

Machine integers are modelled as `Nat` with explicit `% 2^w` truncation where
the C code relies on a fixed width (WORD = 16 bits, DWORD = 32 bits,
unsigned char = 8 bits).
-/

/-! ## Word extraction macros

`LOWORD`/`HIWORD` from the Windows headers: the low and high 16-bit halves of
a 32-bit value. -/

/-- `LOWORD(x)`: low 16 bits of a DWORD. -/
def LOWORD (x : Nat) : Nat := x % 65536

/-- `HIWORD(x)`: high 16 bits of a DWORD. -/
def HIWORD (x : Nat) : Nat := x / 65536 % 65536

/-! ## Hexadecimal formatting

The C code formats values with `%02x` (two lowercase hex digits, for bytes),
`%04x` (four lowercase hex digits, for WORDs) and `%4.4X` (four uppercase hex
digits, for WORDs).  For in-range values these produce exactly the fixed number
of digits, which the definitions below reproduce; out-of-range values cannot
occur because the C operands have the corresponding fixed-width types, and the
definitions truncate accordingly. -/

/-- One lowercase hexadecimal digit, as printf `%x` renders a digit value. -/
def hexDigitChar (n : Nat) : Char :=
  if n < 10 then Char.ofNat (48 + n) else Char.ofNat (87 + n)

/-- One uppercase hexadecimal digit, as printf `%X` renders a digit value. -/
def hexDigitCharUpper (n : Nat) : Char :=
  if n < 10 then Char.ofNat (48 + n) else Char.ofNat (55 + n)

/-- printf `%02x` applied to an unsigned char (8-bit) value. -/
def fmtHex2 (b : Nat) : String :=
  ⟨[hexDigitChar (b % 256 / 16), hexDigitChar (b % 16)]⟩

/-- printf `%04x` applied to a WORD (16-bit) value. -/
def fmtHex4 (w : Nat) : String :=
  ⟨[hexDigitChar (w / 4096 % 16), hexDigitChar (w / 256 % 16),
    hexDigitChar (w / 16 % 16), hexDigitChar (w % 16)]⟩

/-- printf `%4.4X` applied to a WORD (16-bit) value. -/
def fmtHex4U (w : Nat) : String :=
  ⟨[hexDigitCharUpper (w / 4096 % 16), hexDigitCharUpper (w / 256 % 16),
    hexDigitCharUpper (w / 16 % 16), hexDigitCharUpper (w % 16)]⟩

/-! ## `MakeVersionString` (version.cpp lines 199-214) -/

/-- `MakeVersionString(DWORD hi, DWORD lo)`: formats `HIWORD(hi).LOWORD(hi).HIWORD(lo)`
when `LOWORD(lo) == 0`, and `HIWORD(hi).LOWORD(hi).HIWORD(lo).LOWORD(lo)` otherwise
(printf `%d` on WORD values is decimal of the value). -/
def MakeVersionString (hi lo : Nat) : String :=
  if LOWORD lo = 0 then
    toString (HIWORD hi) ++ "." ++ toString (LOWORD hi) ++ "." ++ toString (HIWORD lo)
  else
    toString (HIWORD hi) ++ "." ++ toString (LOWORD hi) ++ "." ++ toString (HIWORD lo)
      ++ "." ++ toString (LOWORD lo)

/-! ## Environment facade (Environment.cpp) -/

namespace Poco

/-- Modelled from the spec: the platform backend `EnvironmentImpl` (the
platform-specific implementation files are not part of this fragment).  The
process environment is a partial map from names to values; `getImpl` fails
with a not-found condition (here `none`) exactly when the name is absent, and
`hasImpl` is the existence check, which never fails. -/
def EnvironmentImpl.getImpl (env : String → Option String) (name : String) :
    Option String :=
  env name

/-- Modelled from the spec: `EnvironmentImpl::hasImpl`, the existence check of
the platform backend. -/
def EnvironmentImpl.hasImpl (env : String → Option String) (name : String) : Bool :=
  (env name).isSome

/-- `Environment::get(name)` (Environment.cpp lines 63-66): delegates to the
backend; `none` models the propagated not-found failure. -/
def Environment.get (env : String → Option String) (name : String) : Option String :=
  EnvironmentImpl.getImpl env name

/-- `Environment::has(name)` (Environment.cpp lines 78-81). -/
def Environment.has (env : String → Option String) (name : String) : Bool :=
  EnvironmentImpl.hasImpl env name

/-- `Environment::get(name, defaultValue)` (Environment.cpp lines 69-75):
`if (has(name)) return get(name); else return defaultValue;`.  The result is
an `Option` because the one-argument `get` it defers to can fail. -/
def Environment.getDefault (env : String → Option String) (name : String)
    (defaultValue : String) : Option String :=
  if Environment.has env name then Environment.get env name else some defaultValue

/-- `Environment::nodeId()` (Environment.cpp lines 120-133): formats the six
bytes of the backend-provided `NodeId` (an array of six unsigned chars) with
`sprintf_s(result, "%02x:%02x:%02x:%02x:%02x:%02x", id[0], ..., id[5])`. -/
def Environment.nodeIdString (b0 b1 b2 b3 b4 b5 : Nat) : String :=
  fmtHex2 b0 ++ ":" ++ fmtHex2 b1 ++ ":" ++ fmtHex2 b2 ++ ":" ++
    fmtHex2 b3 ++ ":" ++ fmtHex2 b4 ++ ":" ++ fmtHex2 b5

end Poco

/-- A character is a lowercase hexadecimal digit. -/
def isLowerHexDigit (c : Char) : Bool :=
  List.contains "0123456789abcdef".data c

/-- The shape `hh:hh:hh:hh:hh:hh` of a formatted node id: seventeen characters,
six two-character lowercase-hex groups joined by colons. -/
def nodeIdPattern : List Char → Bool
  | [a1, a2, s1, b1, b2, s2, c1, c2, s3, d1, d2, s4, e1, e2, s5, f1, f2] =>
    isLowerHexDigit a1 && isLowerHexDigit a2 && (s1 == ':') &&
    isLowerHexDigit b1 && isLowerHexDigit b2 && (s2 == ':') &&
    isLowerHexDigit c1 && isLowerHexDigit c2 && (s3 == ':') &&
    isLowerHexDigit d1 && isLowerHexDigit d2 && (s4 == ':') &&
    isLowerHexDigit e1 && isLowerHexDigit e2 && (s5 == ':') &&
    isLowerHexDigit f1 && isLowerHexDigit f2
  | _ => false

/-! ### Helper lemmas on hex formatting -/

theorem isLowerHexDigit_hexDigitChar (n : Nat) (h : n < 16) :
    isLowerHexDigit (hexDigitChar n) = true := by
  have : ∀ m : Fin 16, isLowerHexDigit (hexDigitChar m.val) = true := by decide
  exact this ⟨n, h⟩

theorem hexDigitChar_injOn (a b : Nat) (ha : a < 16) (hb : b < 16)
    (h : hexDigitChar a = hexDigitChar b) : a = b := by
  have key : ∀ x : Fin 16, ∀ y : Fin 16,
      hexDigitChar x.val = hexDigitChar y.val → x = y := by decide
  have := key ⟨a, ha⟩ ⟨b, hb⟩ h
  exact congrArg Fin.val this

theorem fmtHex2_data (b : Nat) :
    (fmtHex2 b).data = [hexDigitChar (b % 256 / 16), hexDigitChar (b % 16)] := rfl

theorem fmtHex4_data (w : Nat) :
    (fmtHex4 w).data = [hexDigitChar (w / 4096 % 16), hexDigitChar (w / 256 % 16),
      hexDigitChar (w / 16 % 16), hexDigitChar (w % 16)] := rfl

/-- `%04x` is injective on WORD-range values. -/
theorem fmtHex4_injOn (a b : Nat) (ha : a < 65536) (hb : b < 65536)
    (h : fmtHex4 a = fmtHex4 b) : a = b := by
  have hd : (fmtHex4 a).data = (fmtHex4 b).data := by rw [h]
  rw [fmtHex4_data, fmtHex4_data] at hd
  simp only [List.cons.injEq, and_true] at hd
  obtain ⟨h3, h2, h1, h0⟩ := hd
  have e3 := hexDigitChar_injOn _ _ (Nat.mod_lt _ (by omega)) (Nat.mod_lt _ (by omega)) h3
  have e2 := hexDigitChar_injOn _ _ (Nat.mod_lt _ (by omega)) (Nat.mod_lt _ (by omega)) h2
  have e1 := hexDigitChar_injOn _ _ (Nat.mod_lt _ (by omega)) (Nat.mod_lt _ (by omega)) h1
  have e0 := hexDigitChar_injOn _ _ (Nat.mod_lt _ (by omega)) (Nat.mod_lt _ (by omega)) h0
  omega

/-! ## Version resource reader (version.cpp)

The Windows API surface consumed by `CVersionInfo::GetVersionInfo` is modelled
as one record describing the target file's version resource and module
behaviour.  Reads of uninitialized stack memory in the source (the `codepage`
local in `QueryStrings` when `GetCodepageForLanguage` finds no match, and
`lpTranslate[0]` on an empty translation table) are undefined behaviour in C;
they are modelled by an explicit arbitrary `junk` value threaded through. -/

/-- The fields of `VS_FIXEDFILEINFO` that version.cpp reads (the real struct
has further members the code never touches). -/
structure VS_FIXEDFILEINFO where
  dwFileVersionMS : Nat
  dwFileVersionLS : Nat
  dwProductVersionMS : Nat
  dwProductVersionLS : Nat
  deriving DecidableEq, Repr

/-- The fields of `DLLVERSIONINFO` that version.cpp touches. -/
structure DLLVERSIONINFO where
  cbSize : Nat
  dwMajorVersion : Nat
  dwMinorVersion : Nat
  dwBuildNumber : Nat
  deriving DecidableEq, Repr

/-- `struct LANGUAGEANDCODEPAGE` (version.cpp lines 19-23): WORD language and
WORD codepage. -/
structure LANGUAGEANDCODEPAGE where
  wLanguage : Nat
  wCodePage : Nat
  deriving DecidableEq, Repr

/-- `ZeroMemory(&m_FixedFileInfo, ...)`. -/
def zeroFixedInfo : VS_FIXEDFILEINFO :=
  { dwFileVersionMS := 0, dwFileVersionLS := 0
    dwProductVersionMS := 0, dwProductVersionLS := 0 }

/-- `ZeroMemory(&m_dvi, ...)`. -/
def zeroDvi : DLLVERSIONINFO :=
  { cbSize := 0, dwMajorVersion := 0, dwMinorVersion := 0, dwBuildNumber := 0 }

/-- Behaviour of the OS for the target file, as observed by the calls
version.cpp makes:
* `verInfoSize` — result of `GetFileVersionInfoSize`;
* `verInfoLoadOk` — whether `GetFileVersionInfo` succeeds;
* `fixedInfo` — result of `VerQueryValue` on selector `\` (`none` = failure);
* `translation` — result of `VerQueryValue` on `\VarFileInfo\Translation`
  (`none` = failure, `some table` = the language/codepage array);
* `stringValue langCp field` — result of `VerQueryValue` on
  `\StringFileInfo\<langCp>\<field>`, where `langCp` is the eight-character
  language+codepage block name the code builds by concatenation;
* `loadLibraryOk` — whether `LoadLibrary` on the file succeeds;
* `dllGetVersion` — `none` when `GetProcAddress` finds no `DllGetVersion`
  export; `some (ok, written)` when the export exists, `ok` being success of
  the call and `written` the structure contents it stores through its
  argument. -/
structure FileSystem where
  verInfoSize : Nat
  verInfoLoadOk : Bool
  fixedInfo : Option VS_FIXEDFILEINFO
  translation : Option (List LANGUAGEANDCODEPAGE)
  stringValue : String → String → Option String
  loadLibraryOk : Bool
  dllGetVersion : Option (Bool × DLLVERSIONINFO)

/-- The member state of `class CVersionInfo` that version.cpp manipulates. -/
structure CVersionInfo where
  m_strFileName : String
  m_wLanguage : Nat
  m_bVersionOnly : Bool
  m_bDllVersion : Bool
  m_bVersionFound : Bool
  m_strLanguage : String
  m_strCodepage : String
  m_FixedFileInfo : VS_FIXEDFILEINFO
  m_dvi : DLLVERSIONINFO
  m_strCompanyName : String
  m_strFileDescription : String
  m_strFileVersion : String
  m_strInternalName : String
  m_strLegalCopyright : String
  m_strOriginalFilename : String
  m_strProductName : String
  m_strProductVersion : String
  m_strComments : String
  m_strSpecialBuild : String
  m_strPrivateBuild : String

/-- Modelled from the spec: `strutils::trim_ws` (UnicodeString.h, not part of
this fragment) trims surrounding whitespace, per spec §4.2 step 6: "on hit,
trim surrounding whitespace before storing". -/
def trim_ws (s : String) : String := s.trim

/-- `CVersionInfo::QueryValue(szId, s)` (version.cpp lines 370-394): builds the
selector `\StringFileInfo\<m_strLanguage><m_strCodepage>\<szId>`; on success
stores the value, trimming it when nonempty; on failure clears `s`.  The
previous value of `s` never survives, so the result is a function of the
lookup alone. -/
def QueryValue (fs : FileSystem) (lang cp : String) (szId : String) : String :=
  match fs.stringValue (lang ++ cp) szId with
  | some v => if v.isEmpty then v else trim_ws v
  | none => ""

/-- The `while` loop of `CVersionInfo::GetCodepageForLanguage` (version.cpp
lines 437-450): linear scan, first entry whose `wLanguage` equals the request
wins. -/
def scanTranslate : List LANGUAGEANDCODEPAGE → Nat → Option Nat
  | [], _ => none
  | e :: rest, w =>
    if e.wLanguage = w then some e.wCodePage else scanTranslate rest w

/-- `CVersionInfo::GetCodepageForLanguage(wLanguage, wCodePage)` (version.cpp
lines 424-451): `some cp` models returning TRUE with `wCodePage = cp`; `none`
models returning FALSE with the out-parameter untouched.  The source ignores
the `VerQueryValue` return value and would scan uninitialized locals when the
translation query fails (undefined behaviour); that case is modelled as an
empty table, i.e. no match. -/
def GetCodepageForLanguage (fs : FileSystem) (wLanguage : Nat) : Option Nat :=
  scanTranslate (fs.translation.getD []) wLanguage

/-- `CVersionInfo::QueryStrings()` (version.cpp lines 322-363).  When
`m_wLanguage` is nonzero, the language and the looked-up codepage are formatted
with `%04x` (the codepage being the uninitialized `junk` when no translation
entry matches).  Otherwise, when the language string or the codepage string is
empty, the first translation-table entry is formatted with `%4.4X` into both
(reading `lpTranslate[0]` of an empty table yields `junk`).  Then all eleven
named values are queried. -/
def QueryStrings (fs : FileSystem) (junk : Nat) (v : CVersionInfo) : CVersionInfo :=
  let v :=
    if v.m_wLanguage ≠ 0 then
      let codepage := (GetCodepageForLanguage fs v.m_wLanguage).getD junk
      { v with m_strLanguage := fmtHex4 v.m_wLanguage
               m_strCodepage := fmtHex4 codepage }
    else if v.m_strLanguage.isEmpty || v.m_strCodepage.isEmpty then
      match fs.translation with
      | some lpTranslate =>
        let first := lpTranslate.headD { wLanguage := junk, wCodePage := junk }
        { v with m_strLanguage := fmtHex4U first.wLanguage
                 m_strCodepage := fmtHex4U first.wCodePage }
      | none => v
    else v
  { v with
    m_strCompanyName := QueryValue fs v.m_strLanguage v.m_strCodepage "CompanyName"
    m_strFileDescription := QueryValue fs v.m_strLanguage v.m_strCodepage "FileDescription"
    m_strFileVersion := QueryValue fs v.m_strLanguage v.m_strCodepage "FileVersion"
    m_strInternalName := QueryValue fs v.m_strLanguage v.m_strCodepage "InternalName"
    m_strLegalCopyright := QueryValue fs v.m_strLanguage v.m_strCodepage "LegalCopyright"
    m_strOriginalFilename := QueryValue fs v.m_strLanguage v.m_strCodepage "OriginalFilename"
    m_strProductName := QueryValue fs v.m_strLanguage v.m_strCodepage "ProductName"
    m_strProductVersion := QueryValue fs v.m_strLanguage v.m_strCodepage "ProductVersion"
    m_strComments := QueryValue fs v.m_strLanguage v.m_strCodepage "Comments"
    m_strSpecialBuild := QueryValue fs v.m_strLanguage v.m_strCodepage "SpecialBuild"
    m_strPrivateBuild := QueryValue fs v.m_strLanguage v.m_strCodepage "PrivateBuild" }

/-- `CVersionInfo::GetFixedVersionInfo()` (version.cpp lines 399-412): query
the root selector; on success copy the structure, on failure zero-fill it;
then mirror the file-version words into `m_dvi`'s major/minor/build fields. -/
def GetFixedVersionInfo (fs : FileSystem) (v : CVersionInfo) : CVersionInfo :=
  let ffi := fs.fixedInfo.getD zeroFixedInfo
  { v with
    m_FixedFileInfo := ffi
    m_dvi := { v.m_dvi with
      dwMajorVersion := HIWORD ffi.dwFileVersionMS
      dwMinorVersion := LOWORD ffi.dwFileVersionMS
      dwBuildNumber := HIWORD ffi.dwFileVersionLS } }

/-- Version-resource block of `CVersionInfo::GetVersionInfo()` (version.cpp
lines 276-298): zero the structures, query the size — a nonzero size sets
`m_bVersionFound` before the load is even attempted — then load the resource
and, on success, read the fixed info and (unless version-only) the strings. -/
def GetVersionInfoResourcePart (fs : FileSystem) (junk : Nat)
    (v : CVersionInfo) : CVersionInfo :=
  let v := { v with m_FixedFileInfo := zeroFixedInfo, m_dvi := zeroDvi }
  if fs.verInfoSize ≠ 0 then
    let v := { v with m_bVersionFound := true }
    if fs.verInfoLoadOk then
      let v := GetFixedVersionInfo fs v
      if v.m_bVersionOnly = false then QueryStrings fs junk v else v
    else v
  else v

/-- DLL-version block of `CVersionInfo::GetVersionInfo()` (version.cpp lines
300-316), run when `m_bDllVersion` is set: load the module, look up
`DllGetVersion`, call it (resetting `cbSize` to 0 when the call fails), and
free the module.  The second component counts the `FreeLibrary` calls. -/
def GetVersionInfoDllPart (fs : FileSystem) (v : CVersionInfo) :
    CVersionInfo × Nat :=
  if v.m_bDllVersion then
    if fs.loadLibraryOk then
      match fs.dllGetVersion with
      | some (ok, written) =>
        ({ v with m_dvi := { written with cbSize := if ok then written.cbSize else 0 } }, 1)
      | none => (v, 1)
    else (v, 0)
  else (v, 0)

/-- `CVersionInfo::GetVersionInfo()` (version.cpp lines 274-317): the
version-resource block followed by the DLL-version block.  Returns the updated
member state together with the number of `FreeLibrary` calls made. -/
def GetVersionInfo (fs : FileSystem) (junk : Nat) (v : CVersionInfo) :
    CVersionInfo × Nat :=
  GetVersionInfoDllPart fs (GetVersionInfoResourcePart fs junk v)

/-- The member-initializer state every constructor starts from: the explicit
initializers of version.cpp (`m_wLanguage`, `m_bVersionOnly`, `m_bDllVersion`,
and the optionally assigned filename/language/codepage strings), default-empty
`String` members, and zeroed structures.  Modelled from the spec: the
found/not-found flag `m_bVersionFound` is declared in version.h (not part of
this fragment) with default value FALSE — spec §3: "Found/not-found flag: set
once during construction". -/
def initialState (wLanguage : Nat) (bVersionOnly bDllVersion : Bool)
    (fileName language codepage : String) : CVersionInfo :=
  { m_strFileName := fileName
    m_wLanguage := wLanguage
    m_bVersionOnly := bVersionOnly
    m_bDllVersion := bDllVersion
    m_bVersionFound := false
    m_strLanguage := language
    m_strCodepage := codepage
    m_FixedFileInfo := zeroFixedInfo
    m_dvi := zeroDvi
    m_strCompanyName := ""
    m_strFileDescription := ""
    m_strFileVersion := ""
    m_strInternalName := ""
    m_strLegalCopyright := ""
    m_strOriginalFilename := ""
    m_strProductName := ""
    m_strProductVersion := ""
    m_strComments := ""
    m_strSpecialBuild := ""
    m_strPrivateBuild := "" }

/-- `CVersionInfo::CVersionInfo(BOOL bVersionOnly)` (version.cpp lines 31-37). -/
def CVersionInfo.mkVersionOnly (fs : FileSystem) (junk : Nat)
    (bVersionOnly : Bool) : CVersionInfo :=
  (GetVersionInfo fs junk (initialState 0 bVersionOnly false "" "" "")).1

/-- `CVersionInfo::CVersionInfo(WORD wLanguage)` (version.cpp lines 48-54). -/
def CVersionInfo.mkLanguage (fs : FileSystem) (junk : Nat) (wLanguage : Nat) :
    CVersionInfo :=
  (GetVersionInfo fs junk (initialState wLanguage false false "" "" "")).1

/-- `CVersionInfo::CVersionInfo(LPCTSTR szFileToVersion, BOOL bDllVersion)`
(version.cpp lines 61-70); `none` models a NULL pointer argument.  The pair
also carries the `FreeLibrary` call count. -/
def CVersionInfo.mkFileDll (fs : FileSystem) (junk : Nat)
    (szFileToVersion : Option String) (bDllVersion : Bool) : CVersionInfo × Nat :=
  GetVersionInfo fs junk
    (initialState 0 false bDllVersion (szFileToVersion.getD "") "" "")

/-- `CVersionInfo::CVersionInfo(LPCTSTR szFileToVersion, LPCTSTR szLanguage,
LPCTSTR szCodepage)` (version.cpp lines 78-92); `none` models NULL. -/
def CVersionInfo.mkFileLangCp (fs : FileSystem) (junk : Nat)
    (szFileToVersion szLanguage szCodepage : Option String) : CVersionInfo :=
  (GetVersionInfo fs junk
    (initialState 0 false false (szFileToVersion.getD "")
      (szLanguage.getD "") (szCodepage.getD ""))).1

/-! ### Getters (version.cpp lines 113-267) -/

/-- `CVersionInfo::GetFileVersion()`. -/
def CVersionInfo.GetFileVersion (v : CVersionInfo) : String := v.m_strFileVersion

/-- `CVersionInfo::GetPrivateBuild()`. -/
def CVersionInfo.GetPrivateBuild (v : CVersionInfo) : String := v.m_strPrivateBuild

/-- `CVersionInfo::GetSpecialBuild()`. -/
def CVersionInfo.GetSpecialBuild (v : CVersionInfo) : String := v.m_strSpecialBuild

/-- `CVersionInfo::GetCompanyName()`. -/
def CVersionInfo.GetCompanyName (v : CVersionInfo) : String := v.m_strCompanyName

/-- `CVersionInfo::GetFileDescription()`. -/
def CVersionInfo.GetFileDescription (v : CVersionInfo) : String := v.m_strFileDescription

/-- `CVersionInfo::GetInternalName()`. -/
def CVersionInfo.GetInternalName (v : CVersionInfo) : String := v.m_strInternalName

/-- `CVersionInfo::GetLegalCopyright()`. -/
def CVersionInfo.GetLegalCopyright (v : CVersionInfo) : String := v.m_strLegalCopyright

/-- `CVersionInfo::GetOriginalFilename()`. -/
def CVersionInfo.GetOriginalFilename (v : CVersionInfo) : String := v.m_strOriginalFilename

/-- `CVersionInfo::GetProductVersion()`. -/
def CVersionInfo.GetProductVersion (v : CVersionInfo) : String := v.m_strProductVersion

/-- `CVersionInfo::GetComments()`. -/
def CVersionInfo.GetComments (v : CVersionInfo) : String := v.m_strComments

/-- Modelled from the spec: `GetProductName()`, the eleventh string getter --
declared in version.h (not part of this fragment); a pure projection of the
`ProductName` string field like its ten siblings in version.cpp. -/
def CVersionInfo.GetProductName (v : CVersionInfo) : String := v.m_strProductName

/-- `CVersionInfo::GetFixedProductVersion()` (version.cpp lines 221-227). -/
def CVersionInfo.GetFixedProductVersion (v : CVersionInfo) : String :=
  if v.m_bVersionFound = false then ""
  else MakeVersionString v.m_FixedFileInfo.dwProductVersionMS
    v.m_FixedFileInfo.dwProductVersionLS

/-- `CVersionInfo::GetFixedFileVersion()` (version.cpp lines 234-240). -/
def CVersionInfo.GetFixedFileVersion (v : CVersionInfo) : String :=
  if v.m_bVersionFound = false then ""
  else MakeVersionString v.m_FixedFileInfo.dwFileVersionMS
    v.m_FixedFileInfo.dwFileVersionLS

/-- `CVersionInfo::GetFixedFileVersion(unsigned&, unsigned&)` (version.cpp
lines 249-258): the result triple is (returned BOOL, `versionMS` after,
`versionLS` after); the in-parameters are the out-parameters' prior values,
left unchanged on the FALSE path. -/
def CVersionInfo.GetFixedFileVersionOut (v : CVersionInfo)
    (versionMS versionLS : Nat) : Bool × Nat × Nat :=
  if v.m_bVersionFound then
    (true, v.m_FixedFileInfo.dwFileVersionMS, v.m_FixedFileInfo.dwFileVersionLS)
  else
    (false, versionMS, versionLS)

/-! ## Claim theorems -/

/-- C1: For every pair of 32-bit inputs (hi, lo), `MakeVersionString` returns
"HIWORD(hi).LOWORD(hi).HIWORD(lo)" when the low 16 bits of lo are zero, and
"HIWORD(hi).LOWORD(hi).HIWORD(lo).LOWORD(lo)" otherwise; in particular inputs
encoding 1.2.3.0 yield "1.2.3" and inputs encoding 1.2.3.4 yield "1.2.3.4". -/
theorem C1_makeVersionString_format (hi lo : Nat) :
    (LOWORD lo = 0 →
      MakeVersionString hi lo =
        toString (HIWORD hi) ++ "." ++ toString (LOWORD hi) ++ "." ++
          toString (HIWORD lo)) ∧
    (LOWORD lo ≠ 0 →
      MakeVersionString hi lo =
        toString (HIWORD hi) ++ "." ++ toString (LOWORD hi) ++ "." ++
          toString (HIWORD lo) ++ "." ++ toString (LOWORD lo)) ∧
    MakeVersionString 0x00010002 0x00030000 = "1.2.3" ∧
    MakeVersionString 0x00010002 0x00030004 = "1.2.3.4" := by
  refine ⟨fun h => by simp [MakeVersionString, h], fun h => by simp [MakeVersionString, h],
    by decide, by decide⟩

theorem C1_makeVersionString_format_witness :
    LOWORD 0x00030000 = 0 ∧
    MakeVersionString 0x00010002 0x00030000 =
      toString (HIWORD 0x00010002) ++ "." ++ toString (LOWORD 0x00010002) ++ "." ++
        toString (HIWORD 0x00030000) :=
  ⟨by decide, (C1_makeVersionString_format 0x00010002 0x00030000).1 (by decide)⟩

/-- C8: For every name and default value, the two-argument get(name, default)
returns exactly the default when has(name) is false and otherwise returns the
same value as the one-argument get(name); in particular it never fails for an
absent variable (nor for a present one). -/
theorem C8_env_getDefault (env : String → Option String) (name defaultValue : String) :
    (Poco.Environment.has env name = false →
      Poco.Environment.getDefault env name defaultValue = some defaultValue) ∧
    (Poco.Environment.has env name = true →
      Poco.Environment.getDefault env name defaultValue =
        Poco.Environment.get env name) ∧
    (Poco.Environment.getDefault env name defaultValue).isSome = true := by
  refine ⟨fun h => by simp [Poco.Environment.getDefault, h],
    fun h => by simp [Poco.Environment.getDefault, h], ?_⟩
  unfold Poco.Environment.getDefault Poco.Environment.has Poco.Environment.get
    Poco.EnvironmentImpl.hasImpl Poco.EnvironmentImpl.getImpl
  cases henv : env name <;> simp [henv]

theorem C8_env_getDefault_witness :
    Poco.Environment.has (fun _ => none) "ABSENT" = false ∧
    Poco.Environment.getDefault (fun _ => none) "ABSENT" "fallback" = some "fallback" :=
  ⟨rfl, (C8_env_getDefault (fun _ => none) "ABSENT" "fallback").1 rfl⟩

/-- C9: For every 6-byte node identifier returned by the backend, the string
returned by nodeId() matches the pattern of six two-digit lowercase hexadecimal
pairs joined by colons, with byte i of the identifier rendered as pair i. -/
theorem C9_nodeId_format (b0 b1 b2 b3 b4 b5 : Nat) :
    nodeIdPattern (Poco.Environment.nodeIdString b0 b1 b2 b3 b4 b5).data = true ∧
    (Poco.Environment.nodeIdString b0 b1 b2 b3 b4 b5).data =
      (fmtHex2 b0).data ++ ':' :: (fmtHex2 b1).data ++ ':' :: (fmtHex2 b2).data ++
        ':' :: (fmtHex2 b3).data ++ ':' :: (fmtHex2 b4).data ++
        ':' :: (fmtHex2 b5).data := by
  have hdata : (Poco.Environment.nodeIdString b0 b1 b2 b3 b4 b5).data =
      (fmtHex2 b0).data ++ ':' :: (fmtHex2 b1).data ++ ':' :: (fmtHex2 b2).data ++
        ':' :: (fmtHex2 b3).data ++ ':' :: (fmtHex2 b4).data ++
        ':' :: (fmtHex2 b5).data := by
    simp [Poco.Environment.nodeIdString, String.data_append]
  refine ⟨?_, hdata⟩
  rw [hdata]
  simp only [fmtHex2_data, List.cons_append, List.nil_append]
  simp only [nodeIdPattern, Bool.and_eq_true, beq_self_eq_true, and_true, true_and]
  repeat' apply And.intro
  all_goals exact isLowerHexDigit_hexDigitChar _ (by omega)

/-- C10: the two-out-parameter GetFixedFileVersion returns TRUE and writes
exactly the stored dwFileVersionMS and dwFileVersionLS into the out-parameters
when the found flag is set, and returns FALSE leaving both out-parameters
unchanged when the found flag is unset. -/
theorem C10_getFixedFileVersionOut_frame (v : CVersionInfo) (versionMS versionLS : Nat) :
    (v.m_bVersionFound = true →
      v.GetFixedFileVersionOut versionMS versionLS =
        (true, v.m_FixedFileInfo.dwFileVersionMS, v.m_FixedFileInfo.dwFileVersionLS)) ∧
    (v.m_bVersionFound = false →
      v.GetFixedFileVersionOut versionMS versionLS = (false, versionMS, versionLS)) := by
  constructor <;> intro h <;> simp [CVersionInfo.GetFixedFileVersionOut, h]

theorem C10_getFixedFileVersionOut_frame_witness :
    (initialState 0 false false "" "" "").m_bVersionFound = false ∧
    (initialState 0 false false "" "" "").GetFixedFileVersionOut 7 9 = (false, 7, 9) :=
  ⟨rfl, (C10_getFixedFileVersionOut_frame (initialState 0 false false "" "" "") 7 9).2 rfl⟩

/-- All eleven string getters of a record return the empty string. -/
def allStringGettersEmpty (v : CVersionInfo) : Prop :=
  v.GetCompanyName = "" ∧ v.GetFileDescription = "" ∧ v.GetFileVersion = "" ∧
  v.GetInternalName = "" ∧ v.GetLegalCopyright = "" ∧ v.GetOriginalFilename = "" ∧
  v.GetProductName = "" ∧ v.GetProductVersion = "" ∧ v.GetComments = "" ∧
  v.GetSpecialBuild = "" ∧ v.GetPrivateBuild = ""

/-- When the size query returns zero, construction leaves every member except
the zeroed `m_FixedFileInfo` and the DLL-branch `m_dvi` exactly as the
member initializers set them. -/
theorem getVersionInfo_fst_size_zero (fs : FileSystem) (junk : Nat)
    (v0 : CVersionInfo) (hsize : fs.verInfoSize = 0) :
    ∃ dvi, (GetVersionInfo fs junk v0).1 =
      { v0 with m_FixedFileInfo := zeroFixedInfo, m_dvi := dvi } := by
  unfold GetVersionInfo GetVersionInfoDllPart GetVersionInfoResourcePart
  simp only [hsize, ne_eq, not_true_eq_false, if_false]
  rcases hb : v0.m_bDllVersion <;> rcases hl : fs.loadLibraryOk <;>
    rcases hdg : fs.dllGetVersion with _ | ⟨ok, written⟩ <;>
    simp [hb, hl, hdg]

/-- A file whose version-info size query reports 100 bytes but whose
version-info load call fails. -/
def fsC2 : FileSystem :=
  { verInfoSize := 100, verInfoLoadOk := false, fixedInfo := none,
    translation := none, stringValue := fun _ _ => none,
    loadLibraryOk := false, dllGetVersion := none }

/-- C2 counterexample: when the size query succeeds but the load fails, the
record does NOT behave as if the resource were absent: the found flag is set
and the fixed file-version getter returns "0.0.0" rather than the empty
string, and the two-out-parameter getter returns TRUE with zeroed values. -/
theorem C2_counterexample :
    ¬ ((CVersionInfo.mkFileLangCp fsC2 0 (some "app.exe") none none).GetFixedFileVersion
        = "" ∧
      (CVersionInfo.mkFileLangCp fsC2 0 (some "app.exe") none none).m_bVersionFound
        = false) := by
  decide

/-- C2 (amended): when the size query returns a nonzero size but the load call
fails, the string getters all report empty, but the found flag remains set,
both fixed numeric getters return the zero version string "0.0.0" (from the
zero-initialized fixed-info structure), and the two-out-parameter getter
returns TRUE writing zeros — the record does not behave as if the resource
were absent. -/
theorem C2_load_failure_degrades (fs : FileSystem) (junk : Nat)
    (file : Option String) (a b : Nat)
    (hsize : fs.verInfoSize ≠ 0) (hload : fs.verInfoLoadOk = false) :
    (CVersionInfo.mkFileLangCp fs junk file none none).m_bVersionFound = true ∧
    allStringGettersEmpty (CVersionInfo.mkFileLangCp fs junk file none none) ∧
    (CVersionInfo.mkFileLangCp fs junk file none none).GetFixedFileVersion = "0.0.0" ∧
    (CVersionInfo.mkFileLangCp fs junk file none none).GetFixedProductVersion = "0.0.0" ∧
    (CVersionInfo.mkFileLangCp fs junk file none none).GetFixedFileVersionOut a b
      = (true, 0, 0) := by
  have h00 : MakeVersionString 0 0 = "0.0.0" := by decide
  unfold CVersionInfo.mkFileLangCp GetVersionInfo GetVersionInfoDllPart
    GetVersionInfoResourcePart
  simp [hsize, hload, initialState, allStringGettersEmpty, zeroFixedInfo, h00,
    CVersionInfo.GetCompanyName, CVersionInfo.GetFileDescription,
    CVersionInfo.GetFileVersion, CVersionInfo.GetInternalName,
    CVersionInfo.GetLegalCopyright, CVersionInfo.GetOriginalFilename,
    CVersionInfo.GetProductName, CVersionInfo.GetProductVersion,
    CVersionInfo.GetComments, CVersionInfo.GetSpecialBuild,
    CVersionInfo.GetPrivateBuild, CVersionInfo.GetFixedFileVersion,
    CVersionInfo.GetFixedProductVersion, CVersionInfo.GetFixedFileVersionOut]

theorem C2_load_failure_degrades_witness :
    fsC2.verInfoSize ≠ 0 ∧ fsC2.verInfoLoadOk = false ∧
    ((CVersionInfo.mkFileLangCp fsC2 0 (some "app.exe") none none).m_bVersionFound = true ∧
    allStringGettersEmpty (CVersionInfo.mkFileLangCp fsC2 0 (some "app.exe") none none) ∧
    (CVersionInfo.mkFileLangCp fsC2 0 (some "app.exe") none none).GetFixedFileVersion
      = "0.0.0" ∧
    (CVersionInfo.mkFileLangCp fsC2 0 (some "app.exe") none none).GetFixedProductVersion
      = "0.0.0" ∧
    (CVersionInfo.mkFileLangCp fsC2 0 (some "app.exe") none none).GetFixedFileVersionOut 7 9
      = (true, 0, 0)) :=
  ⟨by decide, rfl,
    C2_load_failure_degrades fsC2 0 (some "app.exe") 7 9 (by decide) rfl⟩

/-- A file with no version resource at all. -/
def fsC3 : FileSystem :=
  { verInfoSize := 0, verInfoLoadOk := false, fixedInfo := none,
    translation := none, stringValue := fun _ _ => none,
    loadLibraryOk := false, dllGetVersion := none }

/-- C3: when the version-info size query returns zero, the found flag is
unset and every getter — the eleven string getters, GetFixedFileVersion,
GetFixedProductVersion, and the two-out-parameter GetFixedFileVersion —
returns the empty string or FALSE (leaving the out-parameters unchanged),
for every combination of constructor arguments. -/
theorem C3_size_zero_not_found (fs : FileSystem) (junk wLang : Nat)
    (bvo bdll : Bool) (f l c : String) (a b : Nat)
    (hsize : fs.verInfoSize = 0) :
    (GetVersionInfo fs junk (initialState wLang bvo bdll f l c)).1.m_bVersionFound
      = false ∧
    allStringGettersEmpty (GetVersionInfo fs junk (initialState wLang bvo bdll f l c)).1 ∧
    (GetVersionInfo fs junk (initialState wLang bvo bdll f l c)).1.GetFixedFileVersion
      = "" ∧
    (GetVersionInfo fs junk (initialState wLang bvo bdll f l c)).1.GetFixedProductVersion
      = "" ∧
    (GetVersionInfo fs junk (initialState wLang bvo bdll f l c)).1.GetFixedFileVersionOut a b
      = (false, a, b) := by
  obtain ⟨dvi, hv⟩ :=
    getVersionInfo_fst_size_zero fs junk (initialState wLang bvo bdll f l c) hsize
  rw [hv]
  simp [allStringGettersEmpty, initialState,
    CVersionInfo.GetCompanyName, CVersionInfo.GetFileDescription,
    CVersionInfo.GetFileVersion, CVersionInfo.GetInternalName,
    CVersionInfo.GetLegalCopyright, CVersionInfo.GetOriginalFilename,
    CVersionInfo.GetProductName, CVersionInfo.GetProductVersion,
    CVersionInfo.GetComments, CVersionInfo.GetSpecialBuild,
    CVersionInfo.GetPrivateBuild, CVersionInfo.GetFixedFileVersion,
    CVersionInfo.GetFixedProductVersion, CVersionInfo.GetFixedFileVersionOut]

theorem C3_size_zero_not_found_witness :
    fsC3.verInfoSize = 0 ∧
    ((GetVersionInfo fsC3 0 (initialState 3 false true "f" "lg" "cp")).1.m_bVersionFound
      = false ∧
    allStringGettersEmpty (GetVersionInfo fsC3 0 (initialState 3 false true "f" "lg" "cp")).1 ∧
    (GetVersionInfo fsC3 0 (initialState 3 false true "f" "lg" "cp")).1.GetFixedFileVersion
      = "" ∧
    (GetVersionInfo fsC3 0 (initialState 3 false true "f" "lg" "cp")).1.GetFixedProductVersion
      = "" ∧
    (GetVersionInfo fsC3 0 (initialState 3 false true "f" "lg" "cp")).1.GetFixedFileVersionOut 7 9
      = (false, 7, 9)) :=
  ⟨rfl, C3_size_zero_not_found fsC3 0 3 false true "f" "lg" "cp" 7 9 rfl⟩

/-- `QueryStrings` only writes the language/codepage strings and the eleven
value strings; flags, fixed info and DLL info are untouched. -/
theorem queryStrings_frame (fs : FileSystem) (junk : Nat) (v : CVersionInfo) :
    (QueryStrings fs junk v).m_bDllVersion = v.m_bDllVersion ∧
    (QueryStrings fs junk v).m_bVersionFound = v.m_bVersionFound ∧
    (QueryStrings fs junk v).m_FixedFileInfo = v.m_FixedFileInfo ∧
    (QueryStrings fs junk v).m_dvi = v.m_dvi := by
  unfold QueryStrings
  split
  · exact ⟨rfl, rfl, rfl, rfl⟩
  · split
    · split <;> exact ⟨rfl, rfl, rfl, rfl⟩
    · exact ⟨rfl, rfl, rfl, rfl⟩

/-- The version-resource block never changes `m_bDllVersion`. -/
theorem resourcePart_m_bDllVersion (fs : FileSystem) (junk : Nat)
    (v : CVersionInfo) :
    (GetVersionInfoResourcePart fs junk v).m_bDllVersion = v.m_bDllVersion := by
  unfold GetVersionInfoResourcePart GetFixedVersionInfo
  dsimp only
  split
  · split
    · split
      · exact (queryStrings_frame fs junk _).1
      · rfl
    · rfl
  · rfl

/-- After the version-resource block, `m_dvi.cbSize` is always zero: the block
zeroes `m_dvi` and only ever rewrites its major/minor/build fields. -/
theorem resourcePart_dvi_cbSize (fs : FileSystem) (junk : Nat)
    (v : CVersionInfo) :
    (GetVersionInfoResourcePart fs junk v).m_dvi.cbSize = 0 := by
  unfold GetVersionInfoResourcePart GetFixedVersionInfo
  dsimp only
  split
  · split
    · split
      · rw [(queryStrings_frame fs junk _).2.2.2]
        rfl
      · rfl
    · rfl
  · rfl


/-- When the resource is found and loaded with fixed info `ffi`, the
version-resource block stores `ffi` and mirrors its file-version words into
`m_dvi`. -/
theorem resourcePart_loaded (fs : FileSystem) (junk : Nat) (v : CVersionInfo)
    (ffi : VS_FIXEDFILEINFO) (hsize : fs.verInfoSize ≠ 0)
    (hload : fs.verInfoLoadOk = true) (hffi : fs.fixedInfo = some ffi) :
    (GetVersionInfoResourcePart fs junk v).m_dvi =
      { cbSize := 0, dwMajorVersion := HIWORD ffi.dwFileVersionMS,
        dwMinorVersion := LOWORD ffi.dwFileVersionMS,
        dwBuildNumber := HIWORD ffi.dwFileVersionLS } ∧
    (GetVersionInfoResourcePart fs junk v).m_FixedFileInfo = ffi ∧
    (GetVersionInfoResourcePart fs junk v).m_bVersionFound = true := by
  unfold GetVersionInfoResourcePart GetFixedVersionInfo
  try dsimp only
  simp only [hsize, hload, hffi, ne_eq, not_false_eq_true, if_true, ite_true,
    Option.getD_some]
  try dsimp only
  split
  · refine ⟨?_, ?_, ?_⟩
    · rw [(queryStrings_frame fs junk _).2.2.2]
      rfl
    · rw [(queryStrings_frame fs junk _).2.2.1]
    · rw [(queryStrings_frame fs junk _).2.1]
  · exact ⟨rfl, rfl, rfl⟩

/-- When the size query returns zero, the version-resource block only zeroes
the two structures. -/
theorem resourcePart_size_zero (fs : FileSystem) (junk : Nat) (v : CVersionInfo)
    (hsize : fs.verInfoSize = 0) :
    GetVersionInfoResourcePart fs junk v =
      { v with m_FixedFileInfo := zeroFixedInfo, m_dvi := zeroDvi } := by
  unfold GetVersionInfoResourcePart
  simp [hsize]

/-- A file with a version resource, fixed version 1.2.3.4 / product version
5.6.7.8, a one-entry translation table, and string data for every key. -/
def ffiC6 : VS_FIXEDFILEINFO :=
  { dwFileVersionMS := 0x00010002, dwFileVersionLS := 0x00030004,
    dwProductVersionMS := 0x00050006, dwProductVersionLS := 0x00070008 }

/-- The file of `ffiC6`, whose resource also carries string data. -/
def fsC6 : FileSystem :=
  { verInfoSize := 64, verInfoLoadOk := true, fixedInfo := some ffiC6,
    translation := some [{ wLanguage := 0x0409, wCodePage := 1200 }],
    stringValue := fun _ _ => some "ACME",
    loadLibraryOk := false, dllGetVersion := none }

/-- C6: constructing with the version-only flag TRUE never populates the
string table — all eleven string getters return empty even when the resource
contains string data — while the fixed numeric getters still return the
resource's numeric versions when the resource is found and loaded. -/
theorem C6_version_only (fs : FileSystem) (junk : Nat) (ffi : VS_FIXEDFILEINFO)
    (hsize : fs.verInfoSize ≠ 0) (hload : fs.verInfoLoadOk = true)
    (hffi : fs.fixedInfo = some ffi) :
    allStringGettersEmpty (CVersionInfo.mkVersionOnly fs junk true) ∧
    (CVersionInfo.mkVersionOnly fs junk true).GetFixedFileVersion =
      MakeVersionString ffi.dwFileVersionMS ffi.dwFileVersionLS ∧
    (CVersionInfo.mkVersionOnly fs junk true).GetFixedProductVersion =
      MakeVersionString ffi.dwProductVersionMS ffi.dwProductVersionLS := by
  unfold CVersionInfo.mkVersionOnly GetVersionInfo GetVersionInfoDllPart
    GetVersionInfoResourcePart GetFixedVersionInfo
  simp [hsize, hload, hffi, initialState, allStringGettersEmpty,
    CVersionInfo.GetCompanyName, CVersionInfo.GetFileDescription,
    CVersionInfo.GetFileVersion, CVersionInfo.GetInternalName,
    CVersionInfo.GetLegalCopyright, CVersionInfo.GetOriginalFilename,
    CVersionInfo.GetProductName, CVersionInfo.GetProductVersion,
    CVersionInfo.GetComments, CVersionInfo.GetSpecialBuild,
    CVersionInfo.GetPrivateBuild, CVersionInfo.GetFixedFileVersion,
    CVersionInfo.GetFixedProductVersion]

theorem C6_version_only_witness :
    fsC6.verInfoSize ≠ 0 ∧ fsC6.verInfoLoadOk = true ∧ fsC6.fixedInfo = some ffiC6 ∧
    (allStringGettersEmpty (CVersionInfo.mkVersionOnly fsC6 0 true) ∧
     (CVersionInfo.mkVersionOnly fsC6 0 true).GetFixedFileVersion =
       MakeVersionString ffiC6.dwFileVersionMS ffiC6.dwFileVersionLS ∧
     (CVersionInfo.mkVersionOnly fsC6 0 true).GetFixedProductVersion =
       MakeVersionString ffiC6.dwProductVersionMS ffiC6.dwProductVersionLS) :=
  ⟨by decide, rfl, rfl, C6_version_only fsC6 0 ffiC6 (by decide) rfl rfl⟩

/-- A DLL that loads but exports no `DllGetVersion`, while its file carries a
version resource with fixed file version 1.2.3.4. -/
def fsC7 : FileSystem :=
  { verInfoSize := 64, verInfoLoadOk := true,
    fixedInfo := some { dwFileVersionMS := 0x00010002, dwFileVersionLS := 0x00030004,
                        dwProductVersionMS := 0, dwProductVersionLS := 0 },
    translation := none, stringValue := fun _ _ => none,
    loadLibraryOk := true, dllGetVersion := none }

/-- C7 counterexample: a module that loads but lacks `DllGetVersion` does NOT
always leave a zero-valued version-info structure: when the file also has a
loadable version resource, `GetFixedVersionInfo` has already written the fixed
file-version words into `m_dvi`'s major/minor/build fields. -/
theorem C7_counterexample :
    ¬ ((CVersionInfo.mkFileDll fsC7 0 (some "x.dll") true).1.m_dvi = zeroDvi) ∧
    (CVersionInfo.mkFileDll fsC7 0 (some "x.dll") true).1.m_dvi.dwMajorVersion = 1 := by
  decide

/-- C7 (amended): on a DLL-version query whose module loads, the module is
released exactly once whatever the outcome of the symbol lookup or the version
call; when the `DllGetVersion` export is absent, the version call contributes
nothing — `m_dvi.cbSize` stays 0, and `m_dvi` is all zero when no version
resource was found, but holds the file's fixed version words in its
major/minor/build fields when a resource was loaded. -/
theorem C7_dll_no_export (fs : FileSystem) (junk : Nat) (file : Option String)
    (hlib : fs.loadLibraryOk = true) :
    (CVersionInfo.mkFileDll fs junk file true).2 = 1 ∧
    (fs.dllGetVersion = none →
      ((CVersionInfo.mkFileDll fs junk file true).1.m_dvi.cbSize = 0 ∧
       (fs.verInfoSize = 0 →
         (CVersionInfo.mkFileDll fs junk file true).1.m_dvi = zeroDvi) ∧
       (∀ ffi : VS_FIXEDFILEINFO, fs.verInfoSize ≠ 0 → fs.verInfoLoadOk = true →
          fs.fixedInfo = some ffi →
          (CVersionInfo.mkFileDll fs junk file true).1.m_dvi =
            { cbSize := 0, dwMajorVersion := HIWORD ffi.dwFileVersionMS,
              dwMinorVersion := LOWORD ffi.dwFileVersionMS,
              dwBuildNumber := HIWORD ffi.dwFileVersionLS }))) := by
  have hbd : (GetVersionInfoResourcePart fs junk
      (initialState 0 false true (file.getD "") "" "")).m_bDllVersion = true := by
    rw [resourcePart_m_bDllVersion]
    rfl
  refine ⟨?_, fun hsym => ⟨?_, fun hsz => ?_, fun ffi hsz hld hffi => ?_⟩⟩ <;>
    unfold CVersionInfo.mkFileDll GetVersionInfo GetVersionInfoDllPart
  · rcases hdg : fs.dllGetVersion with _ | ⟨ok, written⟩ <;>
      simp [hbd, hlib, hdg]
  · simp only [hbd, hlib, hsym, if_true, ite_true]
    exact resourcePart_dvi_cbSize fs junk _
  · simp only [hbd, hlib, hsym, if_true, ite_true]
    rw [resourcePart_size_zero fs junk _ hsz]
  · simp only [hbd, hlib, hsym, if_true, ite_true]
    exact (resourcePart_loaded fs junk _ ffi hsz hld hffi).1

theorem C7_dll_no_export_witness :
    fsC7.loadLibraryOk = true ∧ fsC7.dllGetVersion = none ∧
    (CVersionInfo.mkFileDll fsC7 0 (some "x.dll") true).2 = 1 ∧
    (CVersionInfo.mkFileDll fsC7 0 (some "x.dll") true).1.m_dvi.cbSize = 0 :=
  ⟨rfl, rfl, (C7_dll_no_export fsC7 0 (some "x.dll") rfl).1,
    ((C7_dll_no_export fsC7 0 (some "x.dll") rfl).2 rfl).1⟩

/-- The eleven string fields of `v` are exactly the `QueryValue` results under
language string `l` and codepage string `c`. -/
def allStringGettersFrom (fs : FileSystem) (l c : String) (v : CVersionInfo) : Prop :=
  v.GetCompanyName = QueryValue fs l c "CompanyName" ∧
  v.GetFileDescription = QueryValue fs l c "FileDescription" ∧
  v.GetFileVersion = QueryValue fs l c "FileVersion" ∧
  v.GetInternalName = QueryValue fs l c "InternalName" ∧
  v.GetLegalCopyright = QueryValue fs l c "LegalCopyright" ∧
  v.GetOriginalFilename = QueryValue fs l c "OriginalFilename" ∧
  v.GetProductName = QueryValue fs l c "ProductName" ∧
  v.GetProductVersion = QueryValue fs l c "ProductVersion" ∧
  v.GetComments = QueryValue fs l c "Comments" ∧
  v.GetSpecialBuild = QueryValue fs l c "SpecialBuild" ∧
  v.GetPrivateBuild = QueryValue fs l c "PrivateBuild"

/-- With a nonzero `m_wLanguage`, `QueryStrings` formats the language with
`%04x` and the looked-up codepage (or the uninitialized junk) likewise, and
queries all eleven values under that pair. -/
theorem queryStrings_lang_nonzero (fs : FileSystem) (junk : Nat)
    (v : CVersionInfo) (hw : v.m_wLanguage ≠ 0) :
    (QueryStrings fs junk v).m_strLanguage = fmtHex4 v.m_wLanguage ∧
    (QueryStrings fs junk v).m_strCodepage =
      fmtHex4 ((GetCodepageForLanguage fs v.m_wLanguage).getD junk) ∧
    allStringGettersFrom fs (fmtHex4 v.m_wLanguage)
      (fmtHex4 ((GetCodepageForLanguage fs v.m_wLanguage).getD junk))
      (QueryStrings fs junk v) := by
  unfold QueryStrings allStringGettersFrom
  simp [hw, CVersionInfo.GetCompanyName, CVersionInfo.GetFileDescription,
    CVersionInfo.GetFileVersion, CVersionInfo.GetInternalName,
    CVersionInfo.GetLegalCopyright, CVersionInfo.GetOriginalFilename,
    CVersionInfo.GetProductName, CVersionInfo.GetProductVersion,
    CVersionInfo.GetComments, CVersionInfo.GetSpecialBuild,
    CVersionInfo.GetPrivateBuild]

/-- With `m_wLanguage` zero and at least one of the language/codepage strings
empty, `QueryStrings` takes the first translation-table entry (formatted with
`%4.4X`) as the active pair and queries all eleven values under it. -/
theorem queryStrings_first_entry (fs : FileSystem) (junk : Nat)
    (v : CVersionInfo) (e : LANGUAGEANDCODEPAGE) (rest : List LANGUAGEANDCODEPAGE)
    (hw : v.m_wLanguage = 0) (htrans : fs.translation = some (e :: rest))
    (hcond : (v.m_strLanguage.isEmpty || v.m_strCodepage.isEmpty) = true) :
    (QueryStrings fs junk v).m_strLanguage = fmtHex4U e.wLanguage ∧
    (QueryStrings fs junk v).m_strCodepage = fmtHex4U e.wCodePage ∧
    allStringGettersFrom fs (fmtHex4U e.wLanguage) (fmtHex4U e.wCodePage)
      (QueryStrings fs junk v) := by
  unfold QueryStrings allStringGettersFrom
  simp [hw, htrans, hcond, CVersionInfo.GetCompanyName, CVersionInfo.GetFileDescription,
    CVersionInfo.GetFileVersion, CVersionInfo.GetInternalName,
    CVersionInfo.GetLegalCopyright, CVersionInfo.GetOriginalFilename,
    CVersionInfo.GetProductName, CVersionInfo.GetProductVersion,
    CVersionInfo.GetComments, CVersionInfo.GetSpecialBuild,
    CVersionInfo.GetPrivateBuild]

/-- With `m_wLanguage` zero and both the language and codepage strings
nonempty, `QueryStrings` keeps the supplied pair and queries all eleven values
under it. -/
theorem queryStrings_both_supplied (fs : FileSystem) (junk : Nat)
    (v : CVersionInfo) (hw : v.m_wLanguage = 0)
    (hcond : (v.m_strLanguage.isEmpty || v.m_strCodepage.isEmpty) = false) :
    (QueryStrings fs junk v).m_strLanguage = v.m_strLanguage ∧
    (QueryStrings fs junk v).m_strCodepage = v.m_strCodepage ∧
    allStringGettersFrom fs v.m_strLanguage v.m_strCodepage
      (QueryStrings fs junk v) := by
  unfold QueryStrings allStringGettersFrom
  simp [hw, hcond, CVersionInfo.GetCompanyName, CVersionInfo.GetFileDescription,
    CVersionInfo.GetFileVersion, CVersionInfo.GetInternalName,
    CVersionInfo.GetLegalCopyright, CVersionInfo.GetOriginalFilename,
    CVersionInfo.GetProductName, CVersionInfo.GetProductVersion,
    CVersionInfo.GetComments, CVersionInfo.GetSpecialBuild,
    CVersionInfo.GetPrivateBuild]

/-- For a full-info, non-DLL construction on a found and loadable resource,
the record is the result of `QueryStrings` after the fixed info was read. -/
theorem construct_strings_path (fs : FileSystem) (junk : Nat) (wLang : Nat)
    (f l c : String) (hsize : fs.verInfoSize ≠ 0)
    (hload : fs.verInfoLoadOk = true) :
    (GetVersionInfo fs junk (initialState wLang false false f l c)).1 =
      QueryStrings fs junk (GetFixedVersionInfo fs
        { initialState wLang false false f l c with m_bVersionFound := true }) := by
  have hres : GetVersionInfoResourcePart fs junk (initialState wLang false false f l c) =
      QueryStrings fs junk (GetFixedVersionInfo fs
        { initialState wLang false false f l c with m_bVersionFound := true }) := by
    unfold GetVersionInfoResourcePart
    simp [hsize, hload, initialState, GetFixedVersionInfo]
  unfold GetVersionInfo GetVersionInfoDllPart
  rw [hres, (queryStrings_frame fs junk _).1]
  simp [GetFixedVersionInfo, initialState]

/-- The scan returns the codepage of the first entry whose language matches. -/
theorem scanTranslate_first_match (pre : List LANGUAGEANDCODEPAGE)
    (e : LANGUAGEANDCODEPAGE) (post : List LANGUAGEANDCODEPAGE) (w : Nat)
    (hpre : ∀ e2 ∈ pre, e2.wLanguage ≠ w) (he : e.wLanguage = w) :
    scanTranslate (pre ++ e :: post) w = some e.wCodePage := by
  induction pre with
  | nil => simp [scanTranslate, he]
  | cons a as ih =>
    have ha : a.wLanguage ≠ w := hpre a (List.mem_cons_self a as)
    simp only [List.cons_append, scanTranslate, ha, if_false, ite_false]
    exact ih fun e2 h2 => hpre e2 (List.mem_cons_of_mem a h2)

/-- The scan returns none when no entry's language matches. -/
theorem scanTranslate_no_match (table : List LANGUAGEANDCODEPAGE) (w : Nat)
    (h : ∀ e ∈ table, e.wLanguage ≠ w) : scanTranslate table w = none := by
  induction table with
  | nil => rfl
  | cons a as ih =>
    have ha : a.wLanguage ≠ w := h a (List.mem_cons_self a as)
    simp only [scanTranslate, ha, if_false, ite_false]
    exact ih fun e2 h2 => h e2 (List.mem_cons_of_mem a h2)

/-- Concatenations of two four-digit hex blocks determine the blocks. -/
theorem fmtHex4_append_left (a b c d : Nat)
    (h : fmtHex4 a ++ fmtHex4 b = fmtHex4 c ++ fmtHex4 d) :
    fmtHex4 a = fmtHex4 c := by
  have hd : (fmtHex4 a).data ++ (fmtHex4 b).data =
      (fmtHex4 c).data ++ (fmtHex4 d).data := by
    rw [← String.data_append, ← String.data_append, h]
  have hlen : (fmtHex4 a).data.length = (fmtHex4 c).data.length := by
    rw [fmtHex4_data, fmtHex4_data]
    rfl
  exact String.ext (List.append_inj hd hlen).1

/-- When no translation entry carries the requested WORD language and the
string table only stores values under translation-listed keys, every query
under the requested language misses. -/
theorem queryValue_miss (fs : FileSystem) (table : List LANGUAGEANDCODEPAGE)
    (w junk : Nat) (fld : String) (hwlt : w < 65536)
    (hbounds : ∀ e ∈ table, e.wLanguage < 65536)
    (hnomatch : ∀ e ∈ table, e.wLanguage ≠ w)
    (hwf : ∀ k f, (fs.stringValue k f).isSome = true →
      ∃ e ∈ table, k = fmtHex4 e.wLanguage ++ fmtHex4 e.wCodePage) :
    QueryValue fs (fmtHex4 w) (fmtHex4 junk) fld = "" := by
  unfold QueryValue
  rcases hsv : fs.stringValue (fmtHex4 w ++ fmtHex4 junk) fld with _ | val
  · rfl
  · exfalso
    obtain ⟨e, he, hk⟩ := hwf _ fld (by rw [hsv]; rfl)
    have h1 : fmtHex4 w = fmtHex4 e.wLanguage := fmtHex4_append_left _ _ _ _ hk
    have h2 : w = e.wLanguage := fmtHex4_injOn w e.wLanguage hwlt (hbounds e he) h1
    exact hnomatch e he h2.symm

/-- Transport: if all eleven fields come from `QueryValue` under a pair whose
queries all miss, then all eleven getters are empty. -/
theorem gettersFrom_to_empty (fs : FileSystem) (l c : String) (v : CVersionInfo)
    (h : allStringGettersFrom fs l c v)
    (hq : ∀ fld, QueryValue fs l c fld = "") : allStringGettersEmpty v := by
  obtain ⟨h1, h2, h3, h4, h5, h6, h7, h8, h9, h10, h11⟩ := h
  exact ⟨h1.trans (hq _), h2.trans (hq _), h3.trans (hq _), h4.trans (hq _),
    h5.trans (hq _), h6.trans (hq _), h7.trans (hq _), h8.trans (hq _),
    h9.trans (hq _), h10.trans (hq _), h11.trans (hq _)⟩

/-- The single translation entry (German 0x0407, codepage 1252) of the C4
test file. -/
def eC4 : LANGUAGEANDCODEPAGE := { wLanguage := 0x0407, wCodePage := 1252 }

/-- A file with a loadable version resource and translation table `[eC4]`. -/
def fsC4 : FileSystem :=
  { verInfoSize := 64, verInfoLoadOk := true, fixedInfo := none,
    translation := some [eC4], stringValue := fun _ _ => none,
    loadLibraryOk := false, dllGetVersion := none }

/-- C4 counterexample: first-entry selection does NOT happen only when neither
language nor codepage was supplied — supplying the language string "0409"
while leaving the codepage unsupplied still triggers it, overwriting the
supplied language with the first translation entry ("0407"/"04E4"). -/
theorem C4_counterexample :
    (CVersionInfo.mkFileLangCp fsC4 0 (some "f.exe") (some "0409") none).m_strLanguage
      = "0407" ∧
    (CVersionInfo.mkFileLangCp fsC4 0 (some "f.exe") (some "0409") none).m_strCodepage
      = "04E4" := by
  decide

/-- C4 (amended): with full (not version-only) info, no numeric language ID
and a nonempty translation table, first-entry selection happens whenever the
language string or the codepage string is missing/empty — not only when both
are — and the active pair is then the first entry, the string getters
returning the (whitespace-trimmed) values stored under that entry's key; only
when both strings are supplied nonempty are they used as given. -/
theorem C4_first_entry_selection (fs : FileSystem) (junk : Nat)
    (file szLang szCp : Option String) (e : LANGUAGEANDCODEPAGE)
    (rest : List LANGUAGEANDCODEPAGE)
    (hsize : fs.verInfoSize ≠ 0) (hload : fs.verInfoLoadOk = true)
    (htrans : fs.translation = some (e :: rest)) :
    (((szLang.getD "").isEmpty || (szCp.getD "").isEmpty) = true →
      (CVersionInfo.mkFileLangCp fs junk file szLang szCp).m_strLanguage
        = fmtHex4U e.wLanguage ∧
      (CVersionInfo.mkFileLangCp fs junk file szLang szCp).m_strCodepage
        = fmtHex4U e.wCodePage ∧
      allStringGettersFrom fs (fmtHex4U e.wLanguage) (fmtHex4U e.wCodePage)
        (CVersionInfo.mkFileLangCp fs junk file szLang szCp) ∧
      (∀ val : String,
        fs.stringValue (fmtHex4U e.wLanguage ++ fmtHex4U e.wCodePage) "CompanyName"
          = some val → trim_ws val = val →
        (CVersionInfo.mkFileLangCp fs junk file szLang szCp).GetCompanyName = val)) ∧
    (((szLang.getD "").isEmpty || (szCp.getD "").isEmpty) = false →
      (CVersionInfo.mkFileLangCp fs junk file szLang szCp).m_strLanguage
        = szLang.getD "" ∧
      (CVersionInfo.mkFileLangCp fs junk file szLang szCp).m_strCodepage
        = szCp.getD "") := by
  have hpath : CVersionInfo.mkFileLangCp fs junk file szLang szCp =
      QueryStrings fs junk (GetFixedVersionInfo fs
        { initialState 0 false false (file.getD "") (szLang.getD "") (szCp.getD "")
          with m_bVersionFound := true }) :=
    construct_strings_path fs junk 0 (file.getD "") (szLang.getD "") (szCp.getD "")
      hsize hload
  constructor
  · intro hcond
    have h := queryStrings_first_entry fs junk
      (GetFixedVersionInfo fs
        { initialState 0 false false (file.getD "") (szLang.getD "") (szCp.getD "")
          with m_bVersionFound := true }) e rest rfl htrans hcond
    rw [hpath]
    refine ⟨h.1, h.2.1, h.2.2, fun val hv htrim => ?_⟩
    have hq : QueryValue fs (fmtHex4U e.wLanguage) (fmtHex4U e.wCodePage)
        "CompanyName" = val := by
      by_cases hemp : val.isEmpty = true
      · simp [QueryValue, hv, hemp]
      · simp [QueryValue, hv, hemp, htrim]
    exact h.2.2.1.trans hq
  · intro hcond
    have h := queryStrings_both_supplied fs junk
      (GetFixedVersionInfo fs
        { initialState 0 false false (file.getD "") (szLang.getD "") (szCp.getD "")
          with m_bVersionFound := true }) rfl hcond
    rw [hpath]
    exact ⟨h.1, h.2.1⟩

theorem C4_first_entry_selection_witness :
    fsC4.verInfoSize ≠ 0 ∧ fsC4.verInfoLoadOk = true ∧
    fsC4.translation = some (eC4 :: []) ∧
    (CVersionInfo.mkFileLangCp fsC4 0 none none none).m_strLanguage
      = fmtHex4U eC4.wLanguage ∧
    (CVersionInfo.mkFileLangCp fsC4 0 none none none).m_strCodepage
      = fmtHex4U eC4.wCodePage ∧
    allStringGettersFrom fsC4 (fmtHex4U eC4.wLanguage) (fmtHex4U eC4.wCodePage)
      (CVersionInfo.mkFileLangCp fsC4 0 none none none) := by
  have h := (C4_first_entry_selection fsC4 0 none none none eC4 []
    (by decide) rfl rfl).1 (by decide)
  exact ⟨by decide, rfl, rfl, h.1, h.2.1, h.2.2.1⟩

/-- The single translation entry (English 0x0409, codepage 1200) of the C5
test file. -/
def eC5 : LANGUAGEANDCODEPAGE := { wLanguage := 0x0409, wCodePage := 1200 }

/-- A file with a loadable version resource, translation table `[eC5]`, and an
empty string table. -/
def fsC5 : FileSystem :=
  { verInfoSize := 64, verInfoLoadOk := true, fixedInfo := none,
    translation := some [eC5], stringValue := fun _ _ => none,
    loadLibraryOk := false, dllGetVersion := none }

/-- C5: with a nonzero numeric language ID, the codepage is resolved by a
linear scan of the translation table, the first entry whose language equals
the request winning (`some` models returning TRUE with the codepage written);
when no entry matches, the lookup returns `none` (FALSE, codepage unresolved)
and — provided the resource stores string values only under
translation-listed keys — all eleven string fields of the constructed record
stay empty. -/
theorem C5_codepage_lookup (fs : FileSystem) (junk w : Nat)
    (table : List LANGUAGEANDCODEPAGE)
    (hw0 : w ≠ 0) (hwlt : w < 65536)
    (hsize : fs.verInfoSize ≠ 0) (hload : fs.verInfoLoadOk = true)
    (htrans : fs.translation = some table)
    (hbounds : ∀ e ∈ table, e.wLanguage < 65536) :
    (∀ pre e post, table = pre ++ e :: post →
      (∀ e2 ∈ pre, e2.wLanguage ≠ w) → e.wLanguage = w →
      GetCodepageForLanguage fs w = some e.wCodePage) ∧
    ((∀ e ∈ table, e.wLanguage ≠ w) →
      (GetCodepageForLanguage fs w = none ∧
       ((∀ k f, (fs.stringValue k f).isSome = true →
          ∃ e ∈ table, k = fmtHex4 e.wLanguage ++ fmtHex4 e.wCodePage) →
        allStringGettersEmpty (CVersionInfo.mkLanguage fs junk w)))) := by
  have hg : GetCodepageForLanguage fs w = scanTranslate table w := by
    unfold GetCodepageForLanguage
    rw [htrans]
    rfl
  constructor
  · intro pre e post htab hpre he
    rw [hg, htab]
    exact scanTranslate_first_match pre e post w hpre he
  · intro hnomatch
    have hnone : GetCodepageForLanguage fs w = none := by
      rw [hg]
      exact scanTranslate_no_match table w hnomatch
    refine ⟨hnone, fun hwf => ?_⟩
    have hpath : CVersionInfo.mkLanguage fs junk w =
        QueryStrings fs junk (GetFixedVersionInfo fs
          { initialState w false false "" "" "" with m_bVersionFound := true }) :=
      construct_strings_path fs junk w "" "" "" hsize hload
    have hfields := (queryStrings_lang_nonzero fs junk
      (GetFixedVersionInfo fs
        { initialState w false false "" "" "" with m_bVersionFound := true }) hw0).2.2
    have hrrw : (GetFixedVersionInfo fs
        { initialState w false false "" "" "" with m_bVersionFound := true }).m_wLanguage
        = w := rfl
    rw [hrrw, hnone, Option.getD_none] at hfields
    rw [hpath]
    exact gettersFrom_to_empty fs _ _ _ hfields
      (fun fld => queryValue_miss fs table w junk fld hwlt hbounds hnomatch hwf)

theorem C5_codepage_lookup_witness :
    (0x0407 : Nat) ≠ 0 ∧ (0x0407 : Nat) < 65536 ∧
    fsC5.verInfoSize ≠ 0 ∧ fsC5.translation = some [eC5] ∧
    GetCodepageForLanguage fsC5 0x0409 = some eC5.wCodePage ∧
    GetCodepageForLanguage fsC5 0x0407 = none ∧
    allStringGettersEmpty (CVersionInfo.mkLanguage fsC5 0 0x0407) := by
  have hmatch := (C5_codepage_lookup fsC5 0 0x0409 [eC5] (by decide) (by decide)
    (by decide) rfl rfl (by decide)).1 [] eC5 [] rfl (by simp) rfl
  have hmiss := (C5_codepage_lookup fsC5 0 0x0407 [eC5] (by decide) (by decide)
    (by decide) rfl rfl (by decide)).2 (by decide)
  exact ⟨by decide, by decide, by decide, rfl, hmatch, hmiss.1,
    hmiss.2 (by intro k f h; simp [fsC5] at h)⟩
